import Mathlib

/-!
Verification development for the comprehensive SRA metadata pipeline.

Shallow embedding of the two core engines of the repository:
  - the sample classification engine (scripts/cancer_classification.py), and
  - the metadata reconciliation drivers (scripts/merge_metadata_maximum.py and
    scripts/merge_metadata_cancer_classification.py).

Rows of a table are modelled as association lists from column name to string
value; pandas DataFrames are modelled as lists of such rows.  Python substring
containment, regular-expression word-boundary search, set iteration and dict
insertion are modelled explicitly and executably.
-/

namespace SraMeta

/-- One table row: an association list from column name to string value.
Models a pandas row / dict; the Python idiom str(row.get(field, "")) is
modelled by rowGet, returning "" for a missing column. -/
abbrev Row := List (String × String)

/-- str(row.get(field, "")): the stored value, or "" when the column is absent. -/
def rowGet (r : Row) (k : String) : String := (r.lookup k).getD ""

/-- Python str.lower, defined directly on the character list (equal to
String.toLower, see strLower_eq_toLower below, but kernel-reducible). -/
def strLower (s : String) : String := ⟨s.data.map Char.toLower⟩

/-- Python str.strip: drop whitespace from both ends. -/
def strTrim (s : String) : String :=
  ⟨((s.data.dropWhile Char.isWhitespace).reverse.dropWhile
      Char.isWhitespace).reverse⟩

/-- Helper for Python substring containment over character lists. -/
def strContainsAux (pat : List Char) : List Char → Bool
  | [] => pat.isEmpty
  | c :: rest => pat.isPrefixOf (c :: rest) || strContainsAux pat rest

/-- Python substring containment: the expression pat in s. -/
def strContains (s pat : String) : Bool := strContainsAux pat.data s.data

/-- A regex word character: [a-zA-Z0-9_], the class backslash-w used by
the word-boundary assertion in re.search. -/
def isWordChar (c : Char) : Bool := c.isAlphanum || c == '_'

/-- Word-character test on an optional character; out-of-string counts as
a non-word position. -/
def optWord : Option Char → Bool
  | some c => isWordChar c
  | none => false

/-- The regex word-boundary assertion at position p of the character list ss:
it holds when exactly one of the character before p and the character at p
is a word character. -/
def boundaryAt (ss : List Char) (p : Nat) : Bool :=
  optWord (if p = 0 then none else ss.get? (p - 1)) != optWord (ss.get? p)

/-- Model of re.search over the pattern built from a word boundary, the
escaped literal e, and a word boundary (as in classify_cancer_type, line 95):
true iff e occurs literally at some position of s with word boundaries
immediately before and after the occurrence. -/
def reSearchWholeWord (e s : String) : Bool :=
  (List.range (s.data.length + 1)).any fun i =>
    e.data.isPrefixOf (s.data.drop i) && boundaryAt s.data i &&
      boundaryAt s.data (i + e.data.length)

/-- The fields_to_check allowlist of classify_cancer_type (lines 58-71),
verbatim, duplicates included. -/
def fieldsToCheck : List String :=
  ["cell_line", "disease", "tissue_type", "sample_title", "study_title",
   "experiment_title", "source_name", "cell_type", "disease_state",
   "histological_type", "treatment", "genotype", "phenotype",
   "SampleName", "Histological_Type", "Body_Site", "Tumor", "Analyte_Type",
   "Disease", "experiment_title", "study_title", "sample_title",
   "age", "altitude", "environment_biome", "host", "host_body_site",
   "isolate", "location", "sex", "strain", "temperature", "dev_stage",
   "environment_feature", "environment_material", "environmental_medium",
   "environmental_sample", "host_genotype", "host_phenotype",
   "biomaterial_provider", "organism_part", "sampling_site", "analyte_type",
   "body_site", "disease_staging", "is_tumor", "subject_is_affected",
   "individual", "replicate", "experimental_factor"]

/-- The free-text normalizer (lines 73-80): lowercase each allowlisted field
present on the row, drop empty values and the literal "nan", join with
single spaces in allowlist order. -/
def allText (row : Row) : String :=
  String.intercalate " "
    ((fieldsToCheck.map (fun f => strLower (rowGet row f))).filter
      (fun v => v != "" && v != "nan"))

/-- any(keyword in all_text for keyword in kws). -/
def kwAny (t : String) (kws : List String) : Bool :=
  kws.any (fun k => strContains t k)

/-- tumor_flags (line 85). -/
def tumorFlagValues : List String := ["yes", "true", "1"]

/-- Stage 1 test (line 86): the Tumor or is_tumor column holds a literal
yes/true/1, case-insensitively. -/
def tumorFlagSet (row : Row) : Bool :=
  tumorFlagValues.contains (strLower (rowGet row "Tumor")) ||
    tumorFlagValues.contains (strLower (rowGet row "is_tumor"))

/-- The reference-set scan of stage 2 (lines 92-98): some entry of length at
least 3 matches the blob as a whole word.  The Python loop breaks on the
first matching entry, but the only effect of a match is the fixed
assignment top_label = Cell line, is_cell_line = yes, so the loop is
equivalent to this existential scan. -/
def refSetMatch (names : List String) (t : String) : Bool :=
  names.any (fun n => decide (3 ≤ n.length) && reSearchWholeWord n t)

/-- Generic cell-line keywords (lines 102 and 108). -/
def genericCellLineKeywords : List String :=
  ["cell line", "culture", "passaged", "cellline", "cl", "line"]

/-- Stages 2 and 3 combined (lines 89-110).  cell_line_names is None when
load_cell_line_reference failed (reference absent); it is an empty list when
the reference loaded but produced no names.  The Python chain is
elif cell_line_names and len(cell_line_names) > 0 (stage 2, reference scan
then generic keywords) and elif cell_line_names is None (stage 3, generic
keywords only); a present-but-empty reference set falls through both. -/
def cellLineStage (t : String) (names : Option (List String)) : Bool :=
  match names with
  | some l =>
    if l.isEmpty then false
    else refSetMatch l t || kwAny t genericCellLineKeywords
  | none => kwAny t genericCellLineKeywords

/-- Pre-malignant keywords (lines 114-117). -/
def preMalignantKeywords : List String :=
  ["barrett", "metaplasia", "dysplasia", "lgd", "hgd", "indefinite",
   "pre-malignant", "premalignant", "precursor", "atypia", "hyperplasia"]

/-- Normal/healthy keywords (lines 132-135). -/
def normalKeywords : List String :=
  ["normal", "healthy", "control", "non-diseased", "squamous epithelium",
   "healthy donor", "baseline", "wild type", "wt", "benign"]

/-- Generic cancer/tumor keywords (lines 141-147). -/
def cancerKeywords : List String :=
  ["carcinoma", "cancer", "tumor", "tumour", "malignant", "adenocarcinoma",
   "squamous cell carcinoma", "scc", "invasive", "metastatic", "neoplasm",
   "esophageal adenocarcinoma", "eac", "esophageal cancer", "eac1416",
   "sarcoma", "lymphoma", "leukemia", "melanoma", "glioblastoma",
   "blastoma", "carcinoid", "adenoma", "papilloma", "fibroma"]

/-- Bulk-sorted keywords (lines 153-156). -/
def bulkSortedKeywords : List String :=
  ["sorted", "purified", "isolated", "enriched", "facs", "magnetic",
   "cd4", "cd8", "t cell", "b cell", "monocyte", "macrophage"]

/-- Adjacent-normal keywords (lines 160-163). -/
def adjacentKeywords : List String :=
  ["adjacent", "marginal normal", "paired normal", "surrounding normal",
   "normal adjacent", "adjacent normal"]

/-- The nested Barrett grade sub-rule of stage 4 (lines 121-128): the
grade-token groups checked in order, first match wins, default the
initialized value "unknown" (line 54). -/
def barrettGradeOf (t : String) : String :=
  if strContains t "lgd" || strContains t "low grade dysplasia" then "LGD"
  else if strContains t "hgd" || strContains t "high grade dysplasia" then "HGD"
  else if strContains t "indefinite" then "indefinite"
  else if strContains t "no dysplasia" then "no dysplasia"
  else "unknown"

/-- top_label after stages 1-3 (the if/elif chain of lines 84-110): the
explicit flag wins; otherwise the cell-line stage (reference scan or generic
keywords, depending on the reference set); otherwise still Unknown. -/
def labelAfter3 (row : Row) (names : Option (List String)) : String :=
  if tumorFlagSet row then "Tumor"
  else if cellLineStage (allText row) names then "Cell line"
  else "Unknown"

/-- top_label after stage 4 (lines 113-118): the pre-malignant keywords fire
only when the label is still Unknown. -/
def labelAfter4 (row : Row) (names : Option (List String)) : String :=
  if labelAfter3 row names == "Unknown" &&
      kwAny (allText row) preMalignantKeywords then "Pre-malignant"
  else labelAfter3 row names

/-- top_label after stage 5 (lines 131-137). -/
def labelAfter5 (row : Row) (names : Option (List String)) : String :=
  if labelAfter4 row names == "Unknown" &&
      kwAny (allText row) normalKeywords then "Normal"
  else labelAfter4 row names

/-- top_label after stage 6 (lines 140-148). -/
def labelAfter6 (row : Row) (names : Option (List String)) : String :=
  if labelAfter5 row names == "Unknown" &&
      kwAny (allText row) cancerKeywords then "Tumor"
  else labelAfter5 row names

/-- is_cell_line: set to yes exactly when stage 2 or stage 3 assigned the
label (lines 97, 104, 110), i.e. the explicit flag did not preempt and the
cell-line stage fired. -/
def isCellLineOut (row : Row) (names : Option (List String)) : String :=
  if !tumorFlagSet row && cellLineStage (allText row) names then "yes" else "no"

/-- is_control: set to yes exactly when stage 5 fired (line 137). -/
def isControlOut (row : Row) (names : Option (List String)) : String :=
  if labelAfter4 row names == "Unknown" &&
      kwAny (allText row) normalKeywords then "yes"
  else "no"

/-- barrett_grade: computed by the nested sub-rule exactly when stage 4
fired, otherwise left at its initialized value "unknown" (line 54). -/
def barrettGradeOut (row : Row) (names : Option (List String)) : String :=
  if labelAfter3 row names == "Unknown" &&
      kwAny (allText row) preMalignantKeywords then barrettGradeOf (allText row)
  else "unknown"

/-- Tissue-origin elif chain (lines 170-191) over the combined text. -/
def tissueOriginOf (tt : String) : String :=
  if strContains tt "esophagus" || strContains tt "esophageal" then "esophagus"
  else if strContains tt "stomach" || strContains tt "gastric" then "stomach"
  else if strContains tt "intestine" || strContains tt "intestinal" ||
      strContains tt "colon" then "intestine"
  else if strContains tt "lung" || strContains tt "pulmonary" then "lung"
  else if strContains tt "liver" || strContains tt "hepatic" then "liver"
  else if strContains tt "breast" || strContains tt "mammary" then "breast"
  else if strContains tt "brain" || strContains tt "cerebral" then "brain"
  else if strContains tt "ovary" || strContains tt "ovarian" then "ovary"
  else if strContains tt "prostate" || strContains tt "prostatic" then "prostate"
  else if strContains tt "pancreas" || strContains tt "pancreatic" then "pancreas"
  else "unknown"

/-- The seven derived classification attributes returned by
classify_cancer_type (lines 193-201). -/
structure Classification where
  top_label : String
  is_cell_line : String
  is_bulk_sorted : String
  is_control : String
  adjacent_normal : String
  barrett_grade : String
  tissue_origin : String
deriving Repr, DecidableEq

/-- classify_cancer_type (lines 44-201).  The primary-label cascade is the
composition of the staged label functions above; the secondary attributes
are computed unconditionally from the same blob; the adjacent-normal rule
(lines 160-166) sets adjacent_normal and promotes a still-Unknown label to
Normal; tissue origin is matched over the blob concatenated (with a space,
line 169) with the lowercased Body_Site column. -/
def classify_cancer_type (row : Row) (cell_line_names : Option (List String)) :
    Classification :=
  let t := allText row
  let lbl6 := labelAfter6 row cell_line_names
  { top_label :=
      if kwAny t adjacentKeywords && lbl6 == "Unknown" then "Normal" else lbl6
    is_cell_line := isCellLineOut row cell_line_names
    is_bulk_sorted := if kwAny t bulkSortedKeywords then "yes" else "no"
    is_control := isControlOut row cell_line_names
    adjacent_normal := if kwAny t adjacentKeywords then "yes" else "no"
    barrett_grade := barrettGradeOut row cell_line_names
    tissue_origin := tissueOriginOf (t ++ " " ++ strLower (rowGet row "Body_Site")) }

/-- Python set.add: insert if not already present. -/
def setAdd (s : List String) (x : String) : List String :=
  if s.contains x then s else s ++ [x]

/-- One iteration of the loader loop of load_cell_line_reference
(lines 22-33): from one CSV row take the CellLineName and
StrippedCellLineName cells (none models a missing or NaN cell), strip
whitespace, keep names that are non-empty and of length at least 3, and
insert their lowercasing into the set. -/
def loadRefStep (acc : List String) (pr : Option String × Option String) :
    List String :=
  let acc1 :=
    match pr.1 with
    | some raw =>
      let nm := strTrim raw
      if nm != "" && decide (3 ≤ nm.length) then setAdd acc (strLower nm) else acc
    | none => acc
  match pr.2 with
  | some raw =>
    let st := strTrim raw
    if st != "" && decide (3 ≤ st.length) then setAdd acc1 (strLower st) else acc1
  | none => acc1

/-- load_cell_line_reference (lines 13-42), success path.  The failure path
of the Python function returns None instead; callers model that by passing
none as the reference set. -/
def load_cell_line_reference (rows : List (Option String × Option String)) :
    List String :=
  rows.foldl loadRefStep []

/-- Specification-side predicate for Claim C5: the entry e occurs in s as a
standalone token — s decomposes around a literal occurrence of e whose
flanking characters (when they exist) are not word characters, so e is
never matched inside a larger token. -/
def occursStandalone (e s : String) : Prop :=
  ∃ pre post : List Char, s.data = pre ++ (e.data ++ post) ∧
    (∀ c, pre.getLast? = some c → isWordChar c = false) ∧
    (∀ c, post.head? = some c → isWordChar c = false)

/-! Embedding of the reconciliation drivers
(scripts/merge_metadata_maximum.py and
scripts/merge_metadata_cancer_classification.py).  A loaded source table is
a list of rows; pd.DataFrame() with no rows models an unavailable or empty
source (each loader returns an empty DataFrame on any failure). -/

/-- A loaded source table: rows of column-name/value pairs. -/
structure DF where
  rows : List Row
deriving Repr, DecidableEq

/-- df.empty for the tables this pipeline builds: no rows. -/
def DF.isEmpty (d : DF) : Bool := d.rows.isEmpty

/-- Column presence at table level, modelled row-wise. -/
def hasCol (d : DF) (k : String) : Bool := d.rows.any (fun r => (r.lookup k).isSome)

/-- runinfo.rename(columns=Run to run_accession). -/
def renameRunColumn (d : DF) : DF :=
  ⟨d.rows.map (fun r =>
    r.map (fun p => (if p.1 == "Run" then "run_accession" else p.1, p.2)))⟩

/-- merged.merge(other, on=key, how=left, suffixes=("", suffix)): every left
row is kept; each matching right row contributes its non-key columns, a
colliding column name receiving the source-qualified suffix. -/
def leftMerge (l r : DF) (key sfx : String) : DF :=
  ⟨(l.rows.map (fun lr =>
      let ms := r.rows.filter (fun rr => rowGet rr key == rowGet lr key)
      if ms.isEmpty then [lr]
      else ms.map (fun rr =>
        lr ++ ((rr.filter (fun p => p.1 != key)).map
          (fun p => (if (lr.lookup p.1).isSome then p.1 ++ sfx else p.1, p.2))))
    )).flatten⟩

/-- Python dict assignment d[k] = v: overwrite in place if the key exists,
else append (insertion order preserved, as for a Python dict). -/
def dictInsert (d : List (String × Row)) (k : String) (v : Row) :
    List (String × Row) :=
  if (d.lookup k).isSome then d.map (fun p => if p.1 == k then (p.1, v) else p)
  else d ++ [(k, v)]

/-- The geo_lookup dictionary (merge_metadata_maximum.py lines 331-335,
merge_metadata_cancer_classification.py lines 262-266): for every GEO row
and every cell whose value starts with GSE, map that value to the row. -/
def buildGeoLookup (geo : DF) : List (String × Row) :=
  geo.rows.foldl
    (fun d r =>
      r.foldl (fun d p => if "GSE".data.isPrefixOf p.2.data then dictInsert d p.2 r else d) d)
    []

/-- The inner matching loop over geo_lookup.items() for one merged row
(maximum lines 345-349, cancer-classification lines 278-282): scan the
lookup entries in order, test gse_id in study_title for each, stop at the
first hit.  Returns the matched GEO row, if any, together with the number
of substring tests the loop performed. -/
def geoRowScan : List (String × Row) → String → Option Row × Nat
  | [], _ => (none, 0)
  | (gse, g) :: rest, title =>
    if strContains title gse then (some g, 1)
    else
      let pr := geoRowScan rest title
      (pr.1, pr.2 + 1)

/-- Total number of substring tests the GEO matching phase performs over a
table whose rows carry the given study_title values. -/
def geoScanCost (lookup : List (String × Row)) (titles : List String) : Nat :=
  (titles.map (fun t => (geoRowScan lookup t).2)).sum

/-- geo.columns in first-seen order, modelled from the rows. -/
def geoColumns (geo : DF) : List String :=
  geo.rows.foldl
    (fun acc r => acc ++ (r.map Prod.fst).filter (fun c => !acc.contains c)) []

/-- merged.at[idx, col] = val: overwrite an existing column else append. -/
def setCol (r : Row) (k v : String) : Row :=
  if (r.lookup k).isSome then r.map (fun p => if p.1 == k then (p.1, v) else p)
  else r ++ [(k, v)]

/-- The GEO weak-link merge block shared by both drivers: initialize a
geo_-prefixed empty column for every GEO column, then, when a study_title
column exists, run the per-row scan and copy the matched row under the
geo_ prefix. -/
def geoMergeStep (merged geo : DF) : DF :=
  let lookup := buildGeoLookup geo
  let cols := geoColumns geo
  ⟨merged.rows.map (fun r =>
    let base := r ++ cols.map (fun c => ("geo_" ++ c, ""))
    if hasCol merged "study_title" then
      match (geoRowScan lookup (rowGet r "study_title")).1 with
      | some g => g.foldl (fun acc p => setCol acc ("geo_" ++ p.1) p.2) base
      | none => base
    else base)⟩

/-- merged.loc[:, not merged.columns.duplicated()]: keep the first
occurrence of each column name. -/
def dedupColumnsRow (r : Row) : Row :=
  r.foldl (fun acc p => if (acc.lookup p.1).isSome then acc else acc ++ [p]) []

/-- merged[prefer-present + others]: the preferred columns that are present,
in declared order, then the remaining columns in first-seen order. -/
def reorderRow (pref : List String) (r : Row) : Row :=
  (pref.filter (fun c => (r.lookup c).isSome)).map (fun c => (c, rowGet r c))
    ++ r.filter (fun p => !pref.contains p.1)

/-- important_cols of merge_metadata_maximum.py (lines 361-368). -/
def importantColsMaximum : List String :=
  ["run_accession", "experiment_accession", "sample_accession", "study_accession",
   "secondary_sample_accession", "secondary_study_accession", "BioSample",
   "BioProject", "experiment_title", "sample_title", "study_title",
   "sample_description", "library_name", "library_strategy", "library_source",
   "library_layout", "instrument_model", "read_count", "base_count",
   "scientific_name", "collection_date", "first_public", "last_updated"]

/-- cancer_classification_cols of merge_metadata_cancer_classification.py
(lines 289-312). -/
def cancerClassificationCols : List String :=
  ["run_accession", "Experiment", "SampleName", "BioSample", "SRAStudy",
   "BioProject", "study_accession", "secondary_study_accession",
   "experiment_accession", "sample_accession", "secondary_sample_accession",
   "LibraryLayout", "LibraryStrategy", "LibrarySource", "Platform", "Model",
   "instrument_model", "library_layout", "library_strategy", "library_source",
   "read_count", "base_count", "first_public", "last_updated",
   "age", "altitude", "cell_line", "cell_type", "disease", "environment_biome",
   "host", "host_body_site", "isolate", "location", "sex", "strain",
   "temperature", "tissue_type", "treatment", "genotype", "phenotype",
   "source_name", "biomaterial_provider", "organism_part",
   "sampling_site", "analyte_type", "body_site", "histological_type",
   "disease_staging", "is_tumor", "subject_is_affected", "individual",
   "replicate", "experimental_factor", "broker_name", "center_name",
   "experiment_title", "library_name", "library_selection",
   "scientific_name", "collection_date", "study_title", "sample_title",
   "submitted_ftp", "fastq_ftp", "dev_stage", "environment_feature",
   "environment_material", "environmental_medium", "environmental_sample",
   "host_genotype", "host_phenotype",
   "ReleaseDate", "LoadDate", "spots", "bases", "spots_with_mates",
   "avgLength", "size_MB", "AssemblyName", "download_path", "LibraryName",
   "LibrarySelection", "InsertSize", "InsertDev", "Study_Pubmed_id",
   "ProjectID", "Sample", "SampleType", "TaxID", "ScientificName",
   "g1k_pop_code", "source", "g1k_analysis_group", "Subject_ID", "Sex",
   "Disease", "Tumor", "Affection_Status", "Analyte_Type",
   "Histological_Type", "Body_Site", "CenterName", "Submission",
   "dbgap_study_accession", "Consent", "RunHash", "ReadHash"]

/-- The merge pipeline of merge_metadata_maximum.py main (lines 296-372):
seed with ENA if non-empty else renamed RunInfo, left-merge the secondary
sources under their declared keys when present, run the GEO weak-link step,
left-merge ffq, drop duplicated columns, reorder the preferred columns to
the front. -/
def mergedMaximum (runinfo ena bios bioproj sra_xml geo ffq : DF) : DF :=
  let seed := if !ena.isEmpty then ena else renameRunColumn runinfo
  let m1 :=
    if !runinfo.isEmpty && !ena.isEmpty then
      leftMerge seed (renameRunColumn runinfo) "run_accession" "_sra"
    else seed
  let m2 :=
    if !bios.isEmpty && hasCol m1 "BioSample" then
      leftMerge m1 bios "BioSample" "_bs"
    else m1
  let m3 :=
    if !bioproj.isEmpty && hasCol m2 "BioProject" then
      leftMerge m2 bioproj "BioProject" "_bp"
    else m2
  let m4 :=
    if !sra_xml.isEmpty && hasCol sra_xml "run_accession" then
      leftMerge m3 sra_xml "run_accession" "_xml"
    else m3
  let m5 := if !geo.isEmpty && !m4.isEmpty then geoMergeStep m4 geo else m4
  let m6 :=
    if !ffq.isEmpty && hasCol ffq "run_accession" then
      leftMerge m5 ffq "run_accession" "_ffq"
    else m5
  ⟨(m6.rows.map dedupColumnsRow).map (reorderRow importantColsMaximum)⟩

/-- The merge pipeline of merge_metadata_cancer_classification.py main
(lines 230-319): same sequence of merges, then reorder and only afterwards
drop duplicated columns. -/
def mergedCancerClassification (runinfo ena bios bioproj sra_xml geo ffq : DF) :
    DF :=
  let seed := if !ena.isEmpty then ena else renameRunColumn runinfo
  let m1 :=
    if !runinfo.isEmpty && !ena.isEmpty then
      leftMerge seed (renameRunColumn runinfo) "run_accession" "_sra"
    else seed
  let m2 :=
    if !bios.isEmpty && hasCol m1 "BioSample" then
      leftMerge m1 bios "BioSample" "_bs"
    else m1
  let m3 :=
    if !bioproj.isEmpty && hasCol m2 "BioProject" then
      leftMerge m2 bioproj "BioProject" "_bp"
    else m2
  let m4 :=
    if !sra_xml.isEmpty && hasCol sra_xml "run_accession" then
      leftMerge m3 sra_xml "run_accession" "_xml"
    else m3
  let m5 := if !geo.isEmpty && !m4.isEmpty then geoMergeStep m4 geo else m4
  let m6 :=
    if !ffq.isEmpty && hasCol ffq "run_accession" then
      leftMerge m5 ffq "run_accession" "_ffq"
    else m5
  ⟨(m6.rows.map (reorderRow cancerClassificationCols)).map dedupColumnsRow⟩

/-- The externally observable outcome of one run of a merge driver script:
the table written to the output file, if any, and an exception propagating
out of main to the caller, if any.  A Python return from main raises
nothing and the interpreter exits normally. -/
structure ScriptRun where
  written : Option DF
  raised : Option String
deriving Repr, DecidableEq

/-- main of merge_metadata_maximum.py (lines 270-387): when ENA and RunInfo
are both empty it prints an ERROR line and returns from main — nothing is
written and no exception is raised, so the process exits with status 0;
otherwise the merged table is written to the output file. -/
def merge_maximum_main (runinfo ena bios bioproj sra_xml geo ffq : DF) :
    ScriptRun :=
  if ena.isEmpty && runinfo.isEmpty then { written := none, raised := none }
  else
    { written := some (mergedMaximum runinfo ena bios bioproj sra_xml geo ffq)
      raised := none }

/-- main of merge_metadata_cancer_classification.py (lines 196-323): the
same guard (lines 223-228) prints an ERROR line, lists the directory and
returns from main — nothing written, no exception, exit status 0. -/
def merge_cancer_classification_main
    (runinfo ena bios bioproj sra_xml geo ffq : DF) : ScriptRun :=
  if ena.isEmpty && runinfo.isEmpty then { written := none, raised := none }
  else
    { written :=
        some (mergedCancerClassification runinfo ena bios bioproj sra_xml geo ffq)
      raised := none }

/-- The all-sources-empty input: every loader produced an empty table. -/
def emptyDF : DF := ⟨[]⟩

/-- A two-entry GEO table used to exhibit the nested-scan cost of the
weak-link join. -/
def geoExample : DF :=
  ⟨[[("geo_accession", "GSE100")], [("geo_accession", "GSE200")]]⟩

/-! Helper lemmas about the embedded string operations. -/

theorem strLower_eq_toLower (s : String) : strLower s = s.toLower :=
  (String.map_eq Char.toLower s).symm

/-! Helper lemmas about the staged label cascade. -/

theorem labelAfter3_cases (row : Row) (names : Option (List String)) :
    labelAfter3 row names = "Tumor" ∨ labelAfter3 row names = "Cell line" ∨
      labelAfter3 row names = "Unknown" := by
  unfold labelAfter3
  split
  · exact Or.inl rfl
  · split
    · exact Or.inr (Or.inl rfl)
    · exact Or.inr (Or.inr rfl)

theorem labelAfter6_mem (row : Row) (names : Option (List String)) :
    labelAfter6 row names ∈
      (["Tumor", "Pre-malignant", "Normal", "Cell line", "Unknown"] : List String) := by
  unfold labelAfter6 labelAfter5 labelAfter4
  rcases labelAfter3_cases row names with h | h | h <;>
    (simp only [h]; repeat' split <;> simp)

/-! Claim theorems. -/

/-- Claim C1 (counterexample to the claim as stated): with ENA and RunInfo
both empty, both merge drivers raise no typed error at all — main prints an
ERROR line and returns normally, so nothing distinguishable as a
NoPrimarySourceAvailable condition reaches the caller (they do write no
output, which is the part of the claim that holds). -/
theorem no_primary_source_not_typed_error :
    (merge_maximum_main emptyDF emptyDF emptyDF emptyDF emptyDF emptyDF
        emptyDF).raised = none ∧
    (merge_maximum_main emptyDF emptyDF emptyDF emptyDF emptyDF emptyDF
        emptyDF).written = none ∧
    (merge_cancer_classification_main emptyDF emptyDF emptyDF emptyDF emptyDF
        emptyDF emptyDF).raised = none ∧
    (merge_cancer_classification_main emptyDF emptyDF emptyDF emptyDF emptyDF
        emptyDF emptyDF).written = none := by
  refine ⟨rfl, rfl, rfl, rfl⟩

/-- Claim C1 (amended): whenever the declared primary source (ENA) and the
alternate (RunInfo) are both empty, each merge driver writes no output table
— in particular it never silently emits an empty table — but it also raises
no typed error: main returns normally after printing a message, so the
failure is signalled only on standard output. -/
theorem no_primary_source_no_output
    (runinfo ena bios bioproj sra_xml geo ffq : DF)
    (hena : ena.isEmpty = true) (hrun : runinfo.isEmpty = true) :
    (merge_maximum_main runinfo ena bios bioproj sra_xml geo ffq).written = none ∧
    (merge_maximum_main runinfo ena bios bioproj sra_xml geo ffq).raised = none ∧
    (merge_cancer_classification_main runinfo ena bios bioproj sra_xml geo
        ffq).written = none ∧
    (merge_cancer_classification_main runinfo ena bios bioproj sra_xml geo
        ffq).raised = none := by
  unfold merge_maximum_main merge_cancer_classification_main
  simp [hena, hrun]

/-- Witness for the amended Claim C1, at the all-sources-empty input. -/
theorem no_primary_source_no_output_witness :
    (merge_maximum_main emptyDF emptyDF emptyDF emptyDF emptyDF emptyDF
        emptyDF).written = none ∧
    (merge_maximum_main emptyDF emptyDF emptyDF emptyDF emptyDF emptyDF
        emptyDF).raised = none ∧
    (merge_cancer_classification_main emptyDF emptyDF emptyDF emptyDF emptyDF
        emptyDF emptyDF).written = none ∧
    (merge_cancer_classification_main emptyDF emptyDF emptyDF emptyDF emptyDF
        emptyDF emptyDF).raised = none :=
  no_primary_source_no_output emptyDF emptyDF emptyDF emptyDF emptyDF emptyDF
    emptyDF (by decide) (by decide)

/-- Claim C3: whenever the explicit boolean-like tumor flag is set (the
Tumor or is_tumor column holds a literal yes/true/1 case-insensitively),
classification assigns top_label = Tumor, whatever else the blob contains
— stage 1 preempts every later keyword stage. -/
theorem explicit_tumor_flag_priority (row : Row) (names : Option (List String))
    (h : tumorFlagSet row = true) :
    (classify_cancer_type row names).top_label = "Tumor" := by
  have h3 : labelAfter3 row names = "Tumor" := by unfold labelAfter3; simp [h]
  have h4 : labelAfter4 row names = "Tumor" := by unfold labelAfter4; simp [h3]
  have h5 : labelAfter5 row names = "Tumor" := by unfold labelAfter5; simp [h4]
  have h6 : labelAfter6 row names = "Tumor" := by unfold labelAfter6; simp [h5]
  simp [classify_cancer_type, h6]

/-- Witness for Claim C3: a row whose Tumor column is the literal Yes and
whose blob contains the pre-malignant keyword dysplasia still classifies
as Tumor. -/
theorem explicit_tumor_flag_priority_witness :
    kwAny (allText [("Tumor", "Yes"), ("disease", "dysplasia")])
        preMalignantKeywords = true ∧
    (classify_cancer_type [("Tumor", "Yes"), ("disease", "dysplasia")]
        none).top_label = "Tumor" :=
  ⟨by decide,
   explicit_tumor_flag_priority [("Tumor", "Yes"), ("disease", "dysplasia")]
     none (by decide)⟩

/-- Claim C4: label totality — for every row and every reference set
(present, empty or absent), the classifier returns a top_label that is one
of the five declared values; it is never empty or unset. -/
theorem classify_top_label_totality (row : Row) (names : Option (List String)) :
    (classify_cancer_type row names).top_label ∈
      (["Tumor", "Pre-malignant", "Normal", "Cell line", "Unknown"] :
        List String) := by
  have h6 := labelAfter6_mem row names
  simp only [classify_cancer_type]
  split
  · simp
  · simpa using h6

/-- If the cell-line stage did not fire, no stage of the cascade ever
assigns the label Cell line. -/
theorem top_label_cellline_requires_stage (row : Row)
    (names : Option (List String))
    (h : cellLineStage (allText row) names = false) :
    (classify_cancer_type row names).top_label ≠ "Cell line" := by
  have h3 : labelAfter3 row names = "Tumor" ∨ labelAfter3 row names = "Unknown" := by
    unfold labelAfter3
    split
    · exact Or.inl rfl
    · simp [h]
  have h6 : labelAfter6 row names ≠ "Cell line" := by
    unfold labelAfter6 labelAfter5 labelAfter4
    rcases h3 with h3 | h3 <;> (simp only [h3]; (repeat' split) <;> decide)
  simp only [classify_cancer_type]
  split
  · simp
  · exact h6

/-- Claim C2 (counterexample to the claim as stated): with a
present-but-empty reference set, a row whose blob contains the generic
keyword phrase passaged culture is NOT classified Cell line — the elif
chain skips both the reference scan (the set is falsy) and the
generic-keyword fallback (the set is not None), so the row stays
Unknown. -/
theorem empty_reference_set_skips_generic_fallback :
    (classify_cancer_type [("sample_title", "passaged culture")]
        (some [])).top_label = "Unknown" ∧
    (classify_cancer_type [("sample_title", "passaged culture")]
        (some [])).top_label ≠ "Cell line" :=
  ⟨by decide, by decide⟩

/-- Claim C2 (amended): when the reference set is absent (the loader
returned None), a row whose blob contains a generic cell-line keyword and
whose explicit tumor flag is not set classifies as Cell line via the
generic-keyword fallback; when the reference set is present but empty,
however, no row is ever classified Cell line — both cell-line stages are
skipped.  No exception is raised in either mode (the embedded classifier
is total). -/
theorem absent_reference_generic_fallback (row : Row)
    (hflag : tumorFlagSet row = false)
    (hkw : kwAny (allText row) genericCellLineKeywords = true) :
    (classify_cancer_type row none).top_label = "Cell line" ∧
    (classify_cancer_type row none).is_cell_line = "yes" ∧
    ∀ r : Row, (classify_cancer_type r (some [])).top_label ≠ "Cell line" := by
  have hstage : cellLineStage (allText row) none = true := hkw
  have h3 : labelAfter3 row none = "Cell line" := by
    unfold labelAfter3; simp [hflag, hstage]
  have h4 : labelAfter4 row none = "Cell line" := by unfold labelAfter4; simp [h3]
  have h5 : labelAfter5 row none = "Cell line" := by unfold labelAfter5; simp [h4]
  have h6 : labelAfter6 row none = "Cell line" := by unfold labelAfter6; simp [h5]
  refine ⟨?_, ?_, ?_⟩
  · simp [classify_cancer_type, h6]
  · simp [classify_cancer_type, isCellLineOut, hflag, hstage]
  · intro r
    exact top_label_cellline_requires_stage r (some []) rfl

/-- Witness for the amended Claim C2: with an absent reference set, the
blob passaged culture classifies as Cell line with no exception. -/
theorem absent_reference_generic_fallback_witness :
    (classify_cancer_type [("sample_title", "passaged culture")]
        none).top_label = "Cell line" ∧
    (classify_cancer_type [("sample_title", "passaged culture")]
        none).is_cell_line = "yes" := by
  have h :=
    absent_reference_generic_fallback [("sample_title", "passaged culture")]
      (by decide) (by decide)
  exact ⟨h.1, h.2.1⟩

/-- Claim C6: whenever the blob contains adjacent-normal vocabulary the
classifier sets adjacent_normal, and the final top_label is the stage-6
label promoted from Unknown to Normal — a label already assigned by
stages 1-6 is never overridden. -/
theorem adjacent_normal_promotion (row : Row) (names : Option (List String))
    (h : kwAny (allText row) adjacentKeywords = true) :
    (classify_cancer_type row names).adjacent_normal = "yes" ∧
    (classify_cancer_type row names).top_label =
      (if labelAfter6 row names = "Unknown" then "Normal"
       else labelAfter6 row names) ∧
    (labelAfter6 row names ≠ "Unknown" →
      (classify_cancer_type row names).top_label = labelAfter6 row names) := by
  refine ⟨?_, ?_, ?_⟩
  · simp [classify_cancer_type, h]
  · simp only [classify_cancer_type]
    by_cases h6 : labelAfter6 row names = "Unknown" <;> simp [h, h6]
  · intro h6
    simp [classify_cancer_type, h6]

/-- Witness for Claim C6: a blob with adjacent-normal vocabulary and no
other label-triggering vocabulary is promoted to Normal. -/
theorem adjacent_normal_promotion_witness :
    (classify_cancer_type [("sample_title", "adjacent tissue")]
        none).adjacent_normal = "yes" ∧
    (classify_cancer_type [("sample_title", "adjacent tissue")]
        none).top_label = "Normal" := by
  have h :=
    adjacent_normal_promotion [("sample_title", "adjacent tissue")] none
      (by decide)
  refine ⟨h.1, ?_⟩
  rw [h.2.1]
  decide

/-! Helper lemmas tracking the Pre-malignant label through the cascade. -/

theorem labelAfter4_premal_iff (row : Row) (names : Option (List String)) :
    labelAfter4 row names = "Pre-malignant" ↔
      (labelAfter3 row names == "Unknown" &&
        kwAny (allText row) preMalignantKeywords) = true := by
  unfold labelAfter4
  split
  · next hc => simp [hc]
  · next hc =>
    constructor
    · intro hEq
      rcases labelAfter3_cases row names with h | h | h <;> simp [h] at hEq
    · intro hb
      exact absurd hb hc

theorem labelAfter5_premal_iff (row : Row) (names : Option (List String)) :
    labelAfter5 row names = "Pre-malignant" ↔
      labelAfter4 row names = "Pre-malignant" := by
  unfold labelAfter5
  split
  · next hc =>
    rw [Bool.and_eq_true, beq_iff_eq] at hc
    constructor
    · intro h; exact absurd h (by decide)
    · intro h; rw [hc.1] at h; exact absurd h (by decide)
  · exact Iff.rfl

theorem labelAfter6_premal_iff (row : Row) (names : Option (List String)) :
    labelAfter6 row names = "Pre-malignant" ↔
      labelAfter5 row names = "Pre-malignant" := by
  unfold labelAfter6
  split
  · next hc =>
    rw [Bool.and_eq_true, beq_iff_eq] at hc
    constructor
    · intro h; exact absurd h (by decide)
    · intro h; rw [hc.1] at h; exact absurd h (by decide)
  · exact Iff.rfl

theorem top_label_premal_iff (row : Row) (names : Option (List String)) :
    (classify_cancer_type row names).top_label = "Pre-malignant" ↔
      labelAfter6 row names = "Pre-malignant" := by
  simp only [classify_cancer_type]
  split
  · next hc =>
    rw [Bool.and_eq_true, beq_iff_eq] at hc
    constructor
    · intro h; exact absurd h (by decide)
    · intro h; rw [hc.2] at h; exact absurd h (by decide)
  · exact Iff.rfl

/-- Claim C7: a row classified Pre-malignant receives its barrett_grade
from the grade-token sub-rule (LGD before HGD before indefinite before
no dysplasia, first match wins, default the string unknown); a row not
classified Pre-malignant always carries the default string unknown —
the field is always present and never null. -/
theorem barrett_grade_subrule (row : Row) (names : Option (List String)) :
    ((classify_cancer_type row names).top_label = "Pre-malignant" →
      (classify_cancer_type row names).barrett_grade =
        barrettGradeOf (allText row)) ∧
    ((classify_cancer_type row names).top_label ≠ "Pre-malignant" →
      (classify_cancer_type row names).barrett_grade = "unknown") := by
  have hgrade : (classify_cancer_type row names).barrett_grade =
      barrettGradeOut row names := by
    simp [classify_cancer_type]
  have hiff : (classify_cancer_type row names).top_label = "Pre-malignant" ↔
      (labelAfter3 row names == "Unknown" &&
        kwAny (allText row) preMalignantKeywords) = true := by
    rw [top_label_premal_iff, labelAfter6_premal_iff, labelAfter5_premal_iff,
      labelAfter4_premal_iff]
  constructor
  · intro h
    rw [hgrade]
    simp [barrettGradeOut, hiff.mp h]
  · intro h
    rw [hgrade]
    have hc : (labelAfter3 row names == "Unknown" &&
        kwAny (allText row) preMalignantKeywords) = false := by
      cases hx : (labelAfter3 row names == "Unknown" &&
          kwAny (allText row) preMalignantKeywords)
      · rfl
      · exact absurd (hiff.mpr hx) h
    simp [barrettGradeOut, hc]

/-- Witness for Claim C7: a Pre-malignant row (blob contains barrett) with
no grade-specific token carries barrett_grade unknown, not null. -/
theorem barrett_grade_subrule_witness :
    (classify_cancer_type [("disease", "barrett esophagus")] none).top_label
      = "Pre-malignant" ∧
    (classify_cancer_type [("disease", "barrett esophagus")]
        none).barrett_grade = "unknown" := by
  have h := (barrett_grade_subrule [("disease", "barrett esophagus")] none).1
  refine ⟨by decide, ?_⟩
  rw [h (by decide)]
  decide

/-! Helper lemmas for order-invariance of the reference-set scan. -/

theorem any_perm {α : Type} (p : α → Bool) {l l' : List α} (h : l.Perm l') :
    l.any p = l'.any p :=
  Bool.eq_iff_iff.mpr (by simp only [List.any_eq_true, h.mem_iff])

theorem isEmpty_perm {α : Type} {l l' : List α} (h : l.Perm l') :
    l.isEmpty = l'.isEmpty := by
  have hl := h.length_eq
  cases l <;> cases l' <;> simp_all

/-- Claim C8: classifier determinism — for a fixed row, the seven-field
output is invariant under any reordering of the reference set, so the
incidental iteration order of the Python set cannot affect the result
(and the function itself is pure, so two runs on equal inputs are equal). -/
theorem classify_reference_order_invariant (row : Row) {l l' : List String}
    (h : l.Perm l') :
    classify_cancer_type row (some l) = classify_cancer_type row (some l') := by
  have hstage : cellLineStage (allText row) (some l) =
      cellLineStage (allText row) (some l') := by
    simp only [cellLineStage, refSetMatch]
    rw [isEmpty_perm h, any_perm _ h]
  simp only [classify_cancer_type, labelAfter6, labelAfter5, labelAfter4,
    labelAfter3, isCellLineOut, isControlOut, barrettGradeOut, hstage]

/-- Witness for Claim C8, at a concrete row and a transposed reference
set. -/
theorem classify_reference_order_invariant_witness :
    classify_cancer_type [("cell_line", "hela cells")] (some ["hela", "mcf7"]) =
      classify_cancer_type [("cell_line", "hela cells")] (some ["mcf7", "hela"]) :=
  classify_reference_order_invariant [("cell_line", "hela cells")] (by decide)

/-- A still-Unknown label after stage 6 means stage 5 did not fire: the
label after stage 4 was Unknown and no normal/healthy keyword occurred. -/
theorem stage5_not_fired_of_label6_unknown (row : Row)
    (names : Option (List String)) (h : labelAfter6 row names = "Unknown") :
    labelAfter4 row names = "Unknown" ∧
      kwAny (allText row) normalKeywords = false := by
  have h5 : labelAfter5 row names = "Unknown" := by
    unfold labelAfter6 at h
    split at h
    · exact absurd h (by decide)
    · exact h
  unfold labelAfter5 at h5
  split at h5
  · exact absurd h5 (by decide)
  · next hc =>
    refine ⟨h5, ?_⟩
    cases hk : kwAny (allText row) normalKeywords
    · rfl
    · exact absurd (by rw [Bool.and_eq_true, beq_iff_eq]; exact ⟨h5, hk⟩) hc

/-- Claim C10: a Normal obtained through the adjacent-normal promotion
leaves is_control at no, whereas a Normal assigned by the normal/healthy
keyword stage always sets is_control to yes; hence is_control = yes is not
equivalent to top_label = Normal (third conjunct: a concrete row with
top_label Normal and is_control no). -/
theorem adjacent_promotion_is_not_control :
    (∀ (row : Row) (names : Option (List String)),
        labelAfter6 row names = "Unknown" →
        kwAny (allText row) adjacentKeywords = true →
        (classify_cancer_type row names).top_label = "Normal" ∧
        (classify_cancer_type row names).is_control = "no") ∧
    (∀ (row : Row) (names : Option (List String)),
        labelAfter4 row names = "Unknown" →
        kwAny (allText row) normalKeywords = true →
        (classify_cancer_type row names).top_label = "Normal" ∧
        (classify_cancer_type row names).is_control = "yes") ∧
    ((classify_cancer_type [("location", "adjacent segment")] none).top_label
        = "Normal" ∧
      (classify_cancer_type [("location", "adjacent segment")] none).is_control
        = "no") := by
  refine ⟨?_, ?_, by decide, by decide⟩
  · intro row names h6 hadj
    obtain ⟨h4, hnk⟩ := stage5_not_fired_of_label6_unknown row names h6
    constructor
    · simp [classify_cancer_type, hadj, h6]
    · simp [classify_cancer_type, isControlOut, hnk]
  · intro row names h4 hnk
    have h5 : labelAfter5 row names = "Normal" := by
      unfold labelAfter5
      have hcond : (labelAfter4 row names == "Unknown" &&
          kwAny (allText row) normalKeywords) = true := by
        rw [Bool.and_eq_true, beq_iff_eq]; exact ⟨h4, hnk⟩
      simp [hcond]
    have h6 : labelAfter6 row names = "Normal" := by unfold labelAfter6; simp [h5]
    constructor
    · simp [classify_cancer_type, h6]
    · simp [classify_cancer_type, isControlOut, h4, hnk]

/-- Witness for Claim C10, via its first conjunct: a row carrying only
adjacent vocabulary is promoted to Normal with is_control no. -/
theorem adjacent_promotion_is_not_control_witness :
    (classify_cancer_type [("isolate", "adjacent mucosa")] none).top_label
      = "Normal" ∧
    (classify_cancer_type [("isolate", "adjacent mucosa")] none).is_control
      = "no" :=
  adjacent_promotion_is_not_control.1 [("isolate", "adjacent mucosa")] none
    (by decide) (by decide)

/-- When no lookup entry matches a title, the per-row GEO matching loop
runs a substring test against every entry of the lookup. -/
theorem geoRowScan_count_full (lookup : List (String × Row)) (t : String)
    (h : ∀ p ∈ lookup, strContains t p.1 = false) :
    (geoRowScan lookup t).2 = lookup.length := by
  induction lookup with
  | nil => rfl
  | cons hd tl ih =>
    obtain ⟨gse, g⟩ := hd
    have hh : strContains t gse = false := h (gse, g) (List.mem_cons_self _ _)
    simp only [geoRowScan, hh, Bool.false_eq_true, if_false, List.length_cons]
    simp [ih (fun p hp => h p (List.mem_cons_of_mem _ hp))]

/-- Claim C9: the GEO weak-link matching phase of both merge drivers is a
nested scan, not an indexed lookup — on a merged table whose study_title
values contain no GSE token of the lookup, the number of substring tests
performed is exactly (number of rows) times (number of lookup entries),
so merge cost does scale as rows times reference entries. -/
theorem geo_weak_link_nested_scan (geo : DF) (titles : List String)
    (h : ∀ t ∈ titles, ∀ p ∈ buildGeoLookup geo, strContains t p.1 = false) :
    geoScanCost (buildGeoLookup geo) titles =
      titles.length * (buildGeoLookup geo).length := by
  induction titles with
  | nil => simp [geoScanCost]
  | cons t ts ih =>
    have hrow := geoRowScan_count_full (buildGeoLookup geo) t
      (h t (List.mem_cons_self _ _))
    have hts := ih (fun u hu p hp => h u (List.mem_cons_of_mem _ hu) p hp)
    simp only [geoScanCost, List.map_cons, List.sum_cons] at *
    rw [hrow, hts, List.length_cons, Nat.succ_mul]
    omega

/-- Witness for Claim C9: three unmatched rows against a two-entry lookup
cost exactly 3 times 2 = 6 substring tests. -/
theorem geo_weak_link_nested_scan_witness :
    geoScanCost (buildGeoLookup geoExample) ["alpha", "beta", "gamma"] =
      (["alpha", "beta", "gamma"] : List String).length *
        (buildGeoLookup geoExample).length ∧
    geoScanCost (buildGeoLookup geoExample) ["alpha", "beta", "gamma"] = 6 :=
  ⟨geo_weak_link_nested_scan geoExample ["alpha", "beta", "gamma"] (by decide),
   by decide⟩

/-! Helper lemmas for the word-boundary matcher (Claim C5). -/

theorem strLower_length (s : String) : (strLower s).length = s.length := by
  show (String.mk (s.data.map Char.toLower)).length = s.length
  rw [String.mk_length, List.length_map]
  rfl

theorem optWord_getLast_false {pre : List Char}
    (hpre : ∀ c, pre.getLast? = some c → isWordChar c = false) :
    optWord pre.getLast? = false := by
  cases hc : pre.getLast? with
  | none => rfl
  | some c => simpa [optWord] using hpre c hc

theorem optWord_head_false {post : List Char}
    (hpost : ∀ c, post.head? = some c → isWordChar c = false) :
    optWord post.head? = false := by
  cases hc : post.head? with
  | none => rfl
  | some c => simpa [optWord] using hpost c hc

theorem get_at_start (pre ms post : List Char) (m : Char) :
    (pre ++ ((m :: ms) ++ post)).get? pre.length = some m := by
  rw [List.get?_append_right (Nat.le_refl _)]
  simp

theorem get_before_start (pre rest : List Char) (h : pre ≠ []) :
    (pre ++ rest).get? (pre.length - 1) = pre.getLast? := by
  have hlen : pre.length - 1 < pre.length := by
    have := List.length_pos.mpr h
    omega
  rw [List.get?_append hlen, List.getLast?_eq_get?]

theorem get_at_end (pre mid post : List Char) :
    ((pre ++ mid) ++ post).get? (pre.length + mid.length) = post.head? := by
  rw [List.get?_append_right (by simp)]
  simp only [List.length_append, Nat.add_sub_cancel_left, Nat.sub_self]
  cases post <;> simp

theorem get_before_end (pre ms post : List Char) (m : Char) :
    ((pre ++ (m :: ms)) ++ post).get? (pre.length + (m :: ms).length - 1) =
      (m :: ms).getLast? := by
  have hlt : pre.length + (m :: ms).length - 1 < (pre ++ (m :: ms)).length := by
    simp only [List.length_append, List.length_cons]
    omega
  rw [List.get?_append hlt,
    List.get?_append_right (by simp only [List.length_cons]; omega),
    List.getLast?_eq_get?]
  congr 1
  simp only [List.length_cons]
  omega

theorem boundaryAt_start (pre ms post : List Char) (m : Char)
    (hw : isWordChar m = true)
    (hpre : ∀ c, pre.getLast? = some c → isWordChar c = false) :
    boundaryAt (pre ++ ((m :: ms) ++ post)) pre.length = true := by
  unfold boundaryAt
  rw [get_at_start]
  by_cases hp : pre = []
  · subst hp
    simp [optWord, hw]
  · have hne : pre.length ≠ 0 := fun hz => hp (List.length_eq_zero.mp hz)
    rw [if_neg hne, get_before_start pre _ hp, optWord_getLast_false hpre]
    simp [optWord, hw]

theorem boundaryAt_end (pre ms post : List Char) (m : Char)
    (hw : ∀ c ∈ (m :: ms), isWordChar c = true)
    (hpost : ∀ c, post.head? = some c → isWordChar c = false) :
    boundaryAt (pre ++ ((m :: ms) ++ post)) (pre.length + (m :: ms).length)
      = true := by
  unfold boundaryAt
  rw [← List.append_assoc, get_at_end, optWord_head_false hpost]
  have hne : pre.length + (m :: ms).length ≠ 0 := by simp
  rw [if_neg hne, get_before_end]
  obtain ⟨d, hd⟩ :=
    Option.isSome_iff_exists.mp
      (List.getLast?_isSome.mpr (List.cons_ne_nil m ms))
  have hdw : isWordChar d = true :=
    hw d (List.get?_mem (by rw [← List.getLast?_eq_get?]; exact hd))
  rw [hd]
  simp [optWord, hdw]

theorem boundaryAt_start_elim (pre ms post : List Char) (m : Char)
    (hw : isWordChar m = true)
    (hb : boundaryAt (pre ++ ((m :: ms) ++ post)) pre.length = true) :
    ∀ c, pre.getLast? = some c → isWordChar c = false := by
  intro c hc
  unfold boundaryAt at hb
  rw [get_at_start] at hb
  have hp : pre ≠ [] := by
    intro hz
    subst hz
    simp at hc
  have hne : pre.length ≠ 0 := fun hz => hp (List.length_eq_zero.mp hz)
  rw [if_neg hne, get_before_start pre _ hp, hc] at hb
  simpa [optWord, hw] using hb

theorem boundaryAt_end_elim (pre ms post : List Char) (m : Char)
    (hw : ∀ c ∈ (m :: ms), isWordChar c = true)
    (hb : boundaryAt (pre ++ ((m :: ms) ++ post))
        (pre.length + (m :: ms).length) = true) :
    ∀ c, post.head? = some c → isWordChar c = false := by
  intro c hc
  unfold boundaryAt at hb
  rw [← List.append_assoc, get_at_end, hc] at hb
  have hne : pre.length + (m :: ms).length ≠ 0 := by simp
  rw [if_neg hne, get_before_end] at hb
  obtain ⟨d, hd⟩ :=
    Option.isSome_iff_exists.mp
      (List.getLast?_isSome.mpr (List.cons_ne_nil m ms))
  have hdw : isWordChar d = true :=
    hw d (List.get?_mem (by rw [← List.getLast?_eq_get?]; exact hd))
  rw [hd] at hb
  simpa [optWord, hdw] using hb

/-- Soundness of the word-boundary matcher for entries made of word
characters: a reported match is a standalone-token occurrence, never a
substring of a larger token. -/
theorem reSearch_sound (e s : String)
    (hw : ∀ c ∈ e.data, isWordChar c = true) (hne : e.data ≠ [])
    (h : reSearchWholeWord e s = true) : occursStandalone e s := by
  unfold reSearchWholeWord at h
  rw [List.any_eq_true] at h
  obtain ⟨i, hi, hcond⟩ := h
  rw [List.mem_range] at hi
  rw [Bool.and_eq_true, Bool.and_eq_true] at hcond
  obtain ⟨⟨hpref, hb1⟩, hb2⟩ := hcond
  rw [List.isPrefixOf_iff_prefix] at hpref
  obtain ⟨post, hpost⟩ := hpref
  obtain ⟨m, ms, hm⟩ : ∃ m ms, e.data = m :: ms := by
    cases he : e.data with
    | nil => exact absurd he hne
    | cons a as => exact ⟨a, as, rfl⟩
  have hplen : (s.data.take i).length = i := by
    rw [List.length_take]
    exact Nat.min_eq_left (Nat.lt_succ_iff.mp hi)
  have hsplit : s.data = s.data.take i ++ (e.data ++ post) := by
    rw [hpost, List.take_append_drop]
  have hwm : isWordChar m = true := hw m (by rw [hm]; exact List.mem_cons_self m ms)
  have hwms : ∀ c ∈ (m :: ms), isWordChar c = true := by
    intro c hc
    exact hw c (by rw [hm]; exact hc)
  refine ⟨s.data.take i, post, hsplit, ?_, ?_⟩
  · refine boundaryAt_start_elim (s.data.take i) ms post m hwm ?_
    rw [← hm, ← hsplit, hplen]
    exact hb1
  · refine boundaryAt_end_elim (s.data.take i) ms post m hwms ?_
    rw [← hm, ← hsplit, hplen]
    exact hb2

/-- Completeness of the word-boundary matcher for entries made of word
characters: every standalone-token occurrence is found. -/
theorem reSearch_complete (e s : String)
    (hw : ∀ c ∈ e.data, isWordChar c = true) (hne : e.data ≠ [])
    (h : occursStandalone e s) : reSearchWholeWord e s = true := by
  obtain ⟨pre, post, hsplit, hpre, hpost⟩ := h
  obtain ⟨m, ms, hm⟩ : ∃ m ms, e.data = m :: ms := by
    cases he : e.data with
    | nil => exact absurd he hne
    | cons a as => exact ⟨a, as, rfl⟩
  have hwm : isWordChar m = true := hw m (by rw [hm]; exact List.mem_cons_self m ms)
  have hwms : ∀ c ∈ (m :: ms), isWordChar c = true := by
    intro c hc
    exact hw c (by rw [hm]; exact hc)
  unfold reSearchWholeWord
  rw [List.any_eq_true]
  refine ⟨pre.length, ?_, ?_⟩
  · rw [List.mem_range, hsplit]
    simp only [List.length_append]
    omega
  · show (e.data.isPrefixOf (s.data.drop pre.length) &&
        boundaryAt s.data pre.length &&
        boundaryAt s.data (pre.length + e.data.length)) = true
    rw [Bool.and_eq_true, Bool.and_eq_true]
    refine ⟨⟨?_, ?_⟩, ?_⟩
    · rw [List.isPrefixOf_iff_prefix, hsplit, List.drop_left]
      exact ⟨post, rfl⟩
    · rw [hsplit, hm]
      exact boundaryAt_start pre ms post m hwm hpre
    · rw [hsplit, hm]
      exact boundaryAt_end pre ms post m hwms hpost

/-! Helper lemmas for the reference loader (Claim C5). -/

theorem mem_setAdd {s : List String} {x y : String} (h : y ∈ setAdd s x) :
    y ∈ s ∨ y = x := by
  unfold setAdd at h
  split at h
  · exact Or.inl h
  · rcases List.mem_append.mp h with h | h
    · exact Or.inl h
    · exact Or.inr (List.mem_singleton.mp h)

theorem mem_loadRefStep {acc : List String}
    {pr : Option String × Option String} {e : String}
    (he : e ∈ loadRefStep acc pr) :
    e ∈ acc ∨ ∃ raw : String,
      e = strLower (strTrim raw) ∧ 3 ≤ (strTrim raw).length := by
  obtain ⟨c1, c2⟩ := pr
  unfold loadRefStep at he
  have step :
      ∀ (a : List String) (c : Option String),
        e ∈ (match c with
          | some raw =>
            let nm := strTrim raw
            if nm != "" && decide (3 ≤ nm.length) then setAdd a (strLower nm)
            else a
          | none => a) →
        e ∈ a ∨ ∃ raw : String,
          e = strLower (strTrim raw) ∧ 3 ≤ (strTrim raw).length := by
    intro a c hmem
    cases c with
    | none => exact Or.inl hmem
    | some raw =>
      simp only at hmem
      split at hmem
      · next hcnd =>
        rcases mem_setAdd hmem with hmem | hmem
        · exact Or.inl hmem
        · refine Or.inr ⟨raw, hmem, ?_⟩
          rw [Bool.and_eq_true] at hcnd
          exact of_decide_eq_true hcnd.2
      · exact Or.inl hmem
  rcases step _ c2 he with h2 | h2
  · exact step acc c1 h2
  · exact Or.inr h2

theorem mem_load_foldl :
    ∀ (rows : List (Option String × Option String)) (acc : List String)
      (e : String), e ∈ List.foldl loadRefStep acc rows →
      e ∈ acc ∨ ∃ raw : String,
        e = strLower (strTrim raw) ∧ 3 ≤ (strTrim raw).length := by
  intro rows
  induction rows with
  | nil => exact fun acc e he => Or.inl he
  | cons pr tl ih =>
    intro acc e he
    rcases ih (loadRefStep acc pr) e (by simpa using he) with h | h
    · exact mem_loadRefStep h
    · exact Or.inr h

/-- Claim C5: the reference loader admits only entries that are the
lowercasing of a trimmed source string and have length at least 3; and,
for entries consisting of word characters, the word-boundary matcher
reports a match exactly on a standalone-token occurrence — never as a
substring inside a larger token. -/
theorem whole_word_reference_matching :
    (∀ (rows : List (Option String × Option String)) (e : String),
        e ∈ load_cell_line_reference rows →
        3 ≤ e.length ∧ ∃ raw : String, e = strLower (strTrim raw)) ∧
    (∀ e s : String, (∀ c ∈ e.data, isWordChar c = true) → e.data ≠ [] →
        (reSearchWholeWord e s = true ↔ occursStandalone e s)) := by
  constructor
  · intro rows e he
    unfold load_cell_line_reference at he
    rcases mem_load_foldl rows [] e he with h | ⟨raw, hraw, hlen⟩
    · simp at h
    · refine ⟨?_, raw, hraw⟩
      rw [hraw, strLower_length]
      exact hlen
  · intro e s hw hne
    exact ⟨reSearch_sound e s hw hne, reSearch_complete e s hw hne⟩

/-- Witness for Claim C5: the entry mcf7 loaded from the raw cell MCF7
(padded with spaces) is trimmed, lowercased and of length at least 3; the
matcher finds mcf as a standalone token of the blob the mcf line; and it
does not fire inside the larger token amcfb. -/
theorem whole_word_reference_matching_witness :
    (3 ≤ ("mcf7" : String).length ∧
      ∃ raw : String, "mcf7" = strLower (strTrim raw)) ∧
    occursStandalone "mcf" "the mcf line" ∧
    reSearchWholeWord "mcf" "amcfb" = false :=
  ⟨whole_word_reference_matching.1 [(some " MCF7 ", none)] "mcf7" (by decide),
   (whole_word_reference_matching.2 "mcf" "the mcf line" (by decide)
       (by decide)).mp (by decide),
   by decide⟩

end SraMeta
